import Mathlib

/-!
Shallow embedding of `zombie/zombie.py` (exception-transforming re-raise
library) and verification of its specification claims.

The Python module defines:
  * `ExceptionTransformation` — a rule mapping one exception class to
    another, with an optional message (plain string or `string.Template`)
    and a `raise_from_error` flag (zombie.py lines 28-68);
  * `_transform_and_raise` — applies one rule to an observed error and
    raises the new exception (lines 71-109);
  * `_raise_transformed_exception` — scans the rules in order and raises
    the first match's transformation, else re-raises the original
    (lines 112-140);
  * `_reraise_decorator` — the function-wrapping guard (lines 143-220);
  * `Reraise` — guard object: context manager and decorator (lines 223-293).

Raising is modelled by `Except`: a Python function that always raises is
embedded as a function returning the raised exception value; a function
that may return normally is embedded with `Except Exc _`.
-/

/-- The Python exception classes that occur in the repository (source,
tests and examples), as a closed universe.  The subclass structure is
Python's: `KeyError < LookupError < Exception < BaseException`,
`ValueError`, `TypeError`, `RuntimeError` all direct subclasses of
`Exception`. -/
inductive ExcKind : Type where
  | baseException
  | exception
  | lookupError
  | keyError
  | valueError
  | typeError
  | runtimeError
deriving DecidableEq

/-- The method-resolution order (the class itself followed by its proper
ancestors, `object` omitted), mirroring CPython's `__mro__` for these
classes.  `isinstance(e, C)` holds exactly when `C` is a member of the
MRO of `type(e)`. -/
def ExcKind.mro : ExcKind → List ExcKind
  | .baseException => [.baseException]
  | .exception => [.exception, .baseException]
  | .lookupError => [.lookupError, .exception, .baseException]
  | .keyError => [.keyError, .lookupError, .exception, .baseException]
  | .valueError => [.valueError, .exception, .baseException]
  | .typeError => [.typeError, .exception, .baseException]
  | .runtimeError => [.runtimeError, .exception, .baseException]

/-- A Python exception instance.  `id` models object identity (CPython's
`id()`), so that value equality of two `Exc`s includes being the same
instance.  `arg` is the single constructor argument (`none` embeds the
Python value `None`, `some s` a string).  `cause` is `__cause__`,
`context` is `__context__`, and `suppressContext` is
`__suppress_context__` (set by any `raise ... from ...` form). -/
inductive Exc : Type where
  | mk (id : Nat) (kind : ExcKind) (arg : Option String) (cause : Option Exc)
      (context : Option Exc) (suppressContext : Bool)

def Exc.id : Exc → Nat
  | .mk i _ _ _ _ _ => i

def Exc.kind : Exc → ExcKind
  | .mk _ k _ _ _ _ => k

def Exc.arg : Exc → Option String
  | .mk _ _ a _ _ _ => a

def Exc.cause : Exc → Option Exc
  | .mk _ _ _ c _ _ => c

def Exc.context : Exc → Option Exc
  | .mk _ _ _ _ c _ => c

def Exc.suppressContext : Exc → Bool
  | .mk _ _ _ _ _ s => s

/-- Python's `isinstance(e, k)` on this universe: the runtime class of
`e` equals `k` or has `k` among its ancestors. -/
def isinstanceOf (e : Exc) (k : ExcKind) : Bool :=
  (e.kind.mro).contains k

/-- Python `repr` of a string value, for strings containing no quote or
escape characters (the only ones used in this repository):
wrap in single quotes (written as the escape \x27). -/
def pyReprStr (s : String) : String :=
  "\x27" ++ s ++ "\x27"

/-- Python `str(e)` for an exception constructed with a single argument:
`str(arg)` in general (so the Python value `None` renders as the text
"None"), except that `KeyError.__str__` renders `repr(arg)`. -/
def strExc (e : Exc) : String :=
  match e.arg with
  | none => "None"
  | some s => if e.kind = ExcKind.keyError then pyReprStr s else s

/-- The Python value held in an `ExceptionTransformation`'s
`error_message` attribute: `None`, a plain `str`, or a
`string.Template` (carrying its template text). -/
inductive ErrMsg : Type where
  | none
  | str (s : String)
  | template (tpl : String)
deriving DecidableEq

/-- `ExceptionTransformation` (zombie.py lines 28-59): plain data holder
with the four attributes set by `__init__`. -/
structure ExceptionTransformation : Type where
  original_exception : ExcKind
  new_exception : ExcKind
  error_message : ErrMsg
  from_error : Bool
deriving DecidableEq

/-! ### `string.Template.safe_substitute`

The host behaviour used by `_transform_and_raise` (zombie.py lines 93-96).
CPython's `string.Template` scans for the delimiter `$` and, at each
occurrence, matches (in order): an escaped `$$` (emits `$`); a named
placeholder `$identifier`; a braced placeholder whose text is the
delimiter, an opening brace, an identifier and a closing brace; or, when
none of those fit, the lone delimiter ("invalid").  `safe_substitute`
replaces a recognised placeholder whose name is in the mapping, leaves a
recognised placeholder with an unknown name as literal text, and leaves
an invalid delimiter literal as well — it never fails.  Identifiers are
ASCII: `[_a-zA-Z][_a-zA-Z0-9]*`.  Braces are written via escapes
(\x7b, \x7d) throughout. -/

def dollarChar : Char := '$'

def lbraceChar : Char := '\x7b'

def rbraceChar : Char := '\x7d'

def isIdentStart (c : Char) : Bool :=
  c = '_' || ('a' ≤ c && c ≤ 'z') || ('A' ≤ c && c ≤ 'Z')

def isIdentCont (c : Char) : Bool :=
  isIdentStart c || ('0' ≤ c && c ≤ '9')

/-- Longest prefix of identifier-continuation characters. -/
def takeIdentAux : List Char → List Char × List Char
  | [] => ([], [])
  | c :: cs =>
    if isIdentCont c then
      let r := takeIdentAux cs
      (c :: r.1, r.2)
    else ([], c :: cs)

/-- Longest prefix matching `[_a-zA-Z][_a-zA-Z0-9]*` (empty when the
first character is not an identifier start). -/
def takeIdent : List Char → List Char × List Char
  | [] => ([], [])
  | c :: cs =>
    if isIdentStart c then
      let r := takeIdentAux cs
      (c :: r.1, r.2)
    else ([], c :: cs)

theorem takeIdentAux_snd_length (l : List Char) :
    (takeIdentAux l).2.length ≤ l.length := by
  induction l with
  | nil => simp [takeIdentAux]
  | cons c cs ih =>
    simp only [takeIdentAux]
    split
    · exact Nat.le_succ_of_le ih
    · simp

theorem takeIdent_snd_length (l : List Char) :
    (takeIdent l).2.length ≤ l.length := by
  cases l with
  | nil => simp [takeIdent]
  | cons c cs =>
    simp only [takeIdent]
    split
    · exact Nat.le_succ_of_le (takeIdentAux_snd_length cs)
    · simp

/-- Association-list lookup for the substitution mapping. -/
def assocGet (key : String) : List (String × String) → Option String
  | [] => Option.none
  | p :: ps => if p.1 = key then Option.some p.2 else assocGet key ps

/-- `string.Template(tpl).safe_substitute(mapping)` on the character
list of the template. -/
def safeSub (m : List (String × String)) : List Char → List Char
  | [] => []
  | c :: rest =>
    if c = dollarChar then
      match rest with
      | [] => [dollarChar]
      | c2 :: rest2 =>
        if c2 = dollarChar then
          dollarChar :: safeSub m rest2
        else if c2 = lbraceChar then
          match h : takeIdent rest2 with
          | (ident, rb :: after2) =>
            if ident ≠ [] ∧ rb = rbraceChar then
              match assocGet (String.mk ident) m with
              | Option.some v => v.data ++ safeSub m after2
              | Option.none =>
                dollarChar :: lbraceChar :: (ident ++ rbraceChar :: safeSub m after2)
            else
              dollarChar :: safeSub m (c2 :: rest2)
          | (_, []) => dollarChar :: safeSub m (c2 :: rest2)
        else if isIdentStart c2 then
          match assocGet (String.mk (takeIdent (c2 :: rest2)).1) m with
          | Option.some v => v.data ++ safeSub m (takeIdent (c2 :: rest2)).2
          | Option.none =>
            dollarChar :: ((takeIdent (c2 :: rest2)).1 ++ safeSub m (takeIdent (c2 :: rest2)).2)
        else
          dollarChar :: safeSub m (c2 :: rest2)
    else
      c :: safeSub m rest
termination_by l => l.length
decreasing_by
  all_goals simp_wf
  all_goals try omega
  · have hlen := takeIdent_snd_length cs
    rw [h] at hlen
    simp only [List.length_cons] at hlen
    omega
  · have hlen := takeIdent_snd_length (c :: cs)
    simp only [List.length_cons] at hlen
    omega

/-- The string-level wrapper of `safeSub`. -/
def safeSubstitute (m : List (String × String)) (tpl : String) : String :=
  String.mk (safeSub m tpl.data)

theorem safeSub_nil (m : List (String × String)) : safeSub m [] = [] := by
  simp [safeSub]

theorem safeSub_cons_ne (m : List (String × String)) (c : Char) (rest : List Char)
    (hc : c ≠ dollarChar) : safeSub m (c :: rest) = c :: safeSub m rest := by
  rw [safeSub.eq_def]
  simp [hc]

theorem safeSub_dollar_nil (m : List (String × String)) :
    safeSub m [dollarChar] = [dollarChar] := by
  rw [safeSub]
  simp

theorem safeSub_dollar_dollar (m : List (String × String)) (rest : List Char) :
    safeSub m (dollarChar :: dollarChar :: rest) = dollarChar :: safeSub m rest := by
  rw [safeSub]
  simp

theorem safeSub_braced_found (m : List (String × String)) (rest2 ident : List Char)
    (after2 : List Char) (v : String)
    (ht : takeIdent rest2 = (ident, rbraceChar :: after2)) (hident : ident ≠ [])
    (hget : assocGet (String.mk ident) m = Option.some v) :
    safeSub m (dollarChar :: lbraceChar :: rest2) = v.data ++ safeSub m after2 := by
  rw [safeSub]
  rw [if_pos (show dollarChar = dollarChar from rfl)]
  rw [if_neg (show ¬ lbraceChar = dollarChar from by decide)]
  rw [if_pos (show lbraceChar = lbraceChar from rfl)]
  split
  · rename_i heq
    rw [ht] at heq
    injection heq with ha hb
    injection hb with hb1 hb2
    subst ha hb1 hb2
    simp [hident, hget]
  · rename_i heq
    rw [ht] at heq
    injection heq with ha hb
    exact (List.cons_ne_nil _ _ hb).elim

theorem safeSub_braced_missing (m : List (String × String)) (rest2 ident : List Char)
    (after2 : List Char)
    (ht : takeIdent rest2 = (ident, rbraceChar :: after2)) (hident : ident ≠ [])
    (hget : assocGet (String.mk ident) m = Option.none) :
    safeSub m (dollarChar :: lbraceChar :: rest2) =
      dollarChar :: lbraceChar :: (ident ++ rbraceChar :: safeSub m after2) := by
  rw [safeSub]
  rw [if_pos (show dollarChar = dollarChar from rfl)]
  rw [if_neg (show ¬ lbraceChar = dollarChar from by decide)]
  rw [if_pos (show lbraceChar = lbraceChar from rfl)]
  split
  · rename_i heq
    rw [ht] at heq
    injection heq with ha hb
    injection hb with hb1 hb2
    subst ha hb1 hb2
    simp [hident, hget]
  · rename_i heq
    rw [ht] at heq
    injection heq with ha hb
    exact (List.cons_ne_nil _ _ hb).elim

/-- A `$`-free prefix of a template passes through substitution
unchanged. -/
theorem safeSub_append_noDollar (m : List (String × String)) (pre rest : List Char)
    (hpre : ∀ c ∈ pre, c ≠ dollarChar) :
    safeSub m (pre ++ rest) = pre ++ safeSub m rest := by
  induction pre with
  | nil => simp
  | cons c cs ih =>
    simp only [List.cons_append]
    rw [safeSub_cons_ne m c _ (hpre c (by simp))]
    rw [ih (fun x hx => hpre x (by simp [hx]))]

/-- A `$`-free template is left entirely unchanged. -/
theorem safeSub_noDollar (m : List (String × String)) (l : List Char)
    (hl : ∀ c ∈ l, c ≠ dollarChar) : safeSub m l = l := by
  have := safeSub_append_noDollar m l [] hl
  simpa [safeSub_nil] using this

theorem takeIdentAux_append (name : List Char)
    (hname : ∀ c ∈ name, isIdentCont c = true) (d : Char)
    (hd : isIdentCont d = false) (post : List Char) :
    takeIdentAux (name ++ d :: post) = (name, d :: post) := by
  induction name with
  | nil => simp [takeIdentAux, hd]
  | cons c cs ih =>
    have hih := ih (fun x hx => hname x (by simp [hx]))
    simp only [List.cons_append, takeIdentAux, hname c (by simp), if_true]
    simp [hih]

theorem takeIdent_append (c : Char) (cs : List Char) (hc : isIdentStart c = true)
    (hcs : ∀ x ∈ cs, isIdentCont x = true) (d : Char)
    (hd : isIdentCont d = false) (post : List Char) :
    takeIdent (c :: (cs ++ d :: post)) = (c :: cs, d :: post) := by
  simp only [takeIdent, hc]
  rw [takeIdentAux_append cs hcs d hd post]
  simp

/-! ### Core operations (zombie.py lines 71-293)

Raising is modelled by returning the raised exception.  Every raise site
in `_transform_and_raise` and `_raise_transformed_exception` uses a
`raise ... from ...` form or re-raises the observed error, so those two
functions are embedded with result types recording what they raise.
`ambient` is the exception being handled at the raise site (the
`__context__` CPython would attach to a newly raised exception there);
`freshId` is the identity of the newly allocated exception object. -/

/-- `_transform_and_raise` (zombie.py lines 71-109).  Computes the
message argument (lines 90-97: the `error_message` attribute, with a
`string.Template` replaced by its `safe_substitute` against
`original_error_message=str(error)`), then raises
`new_exception(error_message) from error` when `from_error` is set
(line 104) and `new_exception(error_message) from None` otherwise
(line 109).  Both `raise ... from` forms set `__suppress_context__`;
`from error` records `error` as `__cause__`, `from None` records no
cause. -/
def transform_and_raise (transform : ExceptionTransformation) (error : Exc)
    (ambient : Option Exc) (freshId : Nat) : Exc :=
  let arg : Option String :=
    match transform.error_message with
    | ErrMsg.none => Option.none
    | ErrMsg.str s => Option.some s
    | ErrMsg.template tpl =>
        Option.some (safeSubstitute [("original_error_message", strExc error)] tpl)
  if transform.from_error then
    Exc.mk freshId transform.new_exception arg (Option.some error) ambient true
  else
    Exc.mk freshId transform.new_exception arg Option.none ambient true

/-- `_raise_transformed_exception` (zombie.py lines 112-140): iterate
the transformations in order; on the first whose `original_exception`
the error is an instance of, raise via `_transform_and_raise`
(which never returns); after the loop, re-raise the original error
itself.  The function has no normal-return path, so it is embedded
with `Except Exc Unit`: every branch produces `Except.error`. -/
def raise_transformed_exception (transforms : List ExceptionTransformation)
    (error : Exc) (ambient : Option Exc) (freshId : Nat) : Except Exc Unit :=
  match transforms with
  | [] => Except.error error
  | t :: rest =>
    if isinstanceOf error t.original_exception then
      Except.error (transform_and_raise t error ambient freshId)
    else
      raise_transformed_exception rest error ambient freshId

/-- The wrapper produced by `_reraise_decorator` (zombie.py lines
186-218).  The wrapped callable is embedded as `f : α → Except Exc β`
(normal result or raised exception).  `result` starts as `None`
(line 208; embedded by `Option β`, `none` being Python `None`); on
success it is the call's value; on any `BaseException` the handler
calls `_raise_transformed_exception` with the caught error — were that
ever to return normally, the wrapper would fall through to
`return result` with `result` still `None`. -/
def reraise_wrapper {α β : Type} (transforms : List ExceptionTransformation)
    (f : α → Except Exc β) (a : α) (freshId : Nat) : Except Exc (Option β) :=
  match f a with
  | Except.ok r => Except.ok (Option.some r)
  | Except.error e =>
    match raise_transformed_exception transforms e (Option.some e) freshId with
    | Except.error exc => Except.error exc
    | Except.ok _ => Except.ok Option.none

/-- A Python value supplied to `Reraise.__init__`, restricted to the
shapes the repository exercises: a single `ExceptionTransformation`, a
list (mutable sequence) of arbitrary values, a string, or an integer. -/
inductive PyVal : Type where
  | transformation (t : ExceptionTransformation)
  | pyList (xs : List PyVal)
  | pyStr (s : String)
  | pyInt (n : Int)

/-- Whether a `PyVal` is iterable (`tuple(v)` succeeds): lists and
strings are, `ExceptionTransformation` instances and integers are not. -/
def PyVal.isIterable : PyVal → Bool
  | .pyList _ => true
  | .pyStr _ => true
  | .transformation _ => false
  | .pyInt _ => false

/-- `Reraise.__init__` (zombie.py lines 235-249): a single
`ExceptionTransformation` is wrapped into a one-element tuple
(line 246); anything else is passed to `tuple(...)` (line 249), which
succeeds on any iterable — whatever its elements are — and raises
`TypeError` on a non-iterable.  The result is the stored
`self.exception_transformations` tuple. -/
def Reraise_init : PyVal → Except String (List PyVal)
  | PyVal.transformation t => Except.ok [PyVal.transformation t]
  | PyVal.pyList xs => Except.ok xs
  | PyVal.pyStr s => Except.ok (s.data.map fun c => PyVal.pyStr (String.mk [c]))
  | PyVal.pyInt _ => Except.error "TypeError"

/-- `Reraise.__exit__` (zombie.py lines 254-269): with no exception in
flight it returns `False`; with one, it calls
`_raise_transformed_exception` (whose raise propagates out of
`__exit__`) and would return `False` were that call ever to return. -/
def Reraise_exit (transforms : List ExceptionTransformation)
    (exc_value : Option Exc) (freshId : Nat) : Except Exc Bool :=
  match exc_value with
  | Option.none => Except.ok false
  | Option.some error =>
    match raise_transformed_exception transforms error (Option.some error) freshId with
    | Except.error exc => Except.error exc
    | Except.ok _ => Except.ok false

/-- A store of mutable Python list objects holding transformation
rules, indexed by object identity. -/
def RuleHeap : Type := Nat → List ExceptionTransformation

/-- Overwrite the contents of the list object `r` (models in-place
mutation: append, remove, reorder, anything). -/
def RuleHeap.update (h : RuleHeap) (r : Nat) (v : List ExceptionTransformation) :
    RuleHeap :=
  fun r2 => if r2 = r then v else h r2

/-- A constructed `Reraise` guard: its stored
`self.exception_transformations` tuple. -/
structure ReraiseObj : Type where
  exception_transformations : List ExceptionTransformation

/-- `Reraise.__init__` on a list object: `tuple(sequence)` copies the
list's contents as they are at construction time (zombie.py line 249). -/
def Reraise_mk_from_ref (h : RuleHeap) (r : Nat) : ReraiseObj :=
  ⟨h r⟩

/-- Invoking the guard's `__exit__` at a later time, when the heap is
`hNow`: the body reads only the stored tuple
`self.exception_transformations` (zombie.py line 266), never the list
object `r` again. -/
def ReraiseObj.exitAt (self : ReraiseObj) (_hNow : RuleHeap)
    (exc_value : Option Exc) (freshId : Nat) : Except Exc Bool :=
  Reraise_exit self.exception_transformations exc_value freshId


/-! ### Shared lemmas -/

/-- The raised replacement always carries the kind named by the
matched transformation. -/
theorem transform_and_raise_kind (t : ExceptionTransformation) (e : Exc)
    (amb : Option Exc) (fid : Nat) :
    (transform_and_raise t e amb fid).kind = t.new_exception := by
  by_cases h : t.from_error = true
  · unfold transform_and_raise
    rw [if_pos h]
    rfl
  · unfold transform_and_raise
    rw [if_neg h]
    rfl

/-- The matcher always produces `Except.error`, and the raised value is
the original error or the transformation of the first matching rule. -/
theorem raise_transformed_exception_error (ts : List ExceptionTransformation)
    (e : Exc) (amb : Option Exc) (fid : Nat) :
    ∃ exc, raise_transformed_exception ts e amb fid = Except.error exc ∧
      (exc = e ∨ ∃ t ∈ ts, isinstanceOf e t.original_exception = true ∧
        exc = transform_and_raise t e amb fid) := by
  induction ts with
  | nil => exact ⟨e, rfl, Or.inl rfl⟩
  | cons t rest ih =>
    by_cases h : isinstanceOf e t.original_exception = true
    · refine ⟨transform_and_raise t e amb fid, ?_, Or.inr ⟨t, by simp, h, rfl⟩⟩
      simp [raise_transformed_exception, h]
    · obtain ⟨exc, hexc, hcases⟩ := ih
      refine ⟨exc, ?_, ?_⟩
      · simp only [raise_transformed_exception]
        rw [if_neg h]
        exact hexc
      · rcases hcases with h1 | ⟨t2, ht2, h3⟩
        · exact Or.inl h1
        · exact Or.inr ⟨t2, by simp [ht2], h3⟩

/-! ### Claims -/

/-- Claim C1: for every ordered rule sequence and every observed error,
the matcher selects the first rule in declaration order whose
`original_exception` the error is an instance of (polymorphic is-a
matching via `isinstanceOf`), and produces that transformation; the
rules after it — whatever they match — never influence the outcome. -/
theorem first_matching_rule_wins (ts1 ts2 : List ExceptionTransformation)
    (t : ExceptionTransformation) (e : Exc) (amb : Option Exc) (fid : Nat)
    (h1 : ∀ t2 ∈ ts1, isinstanceOf e t2.original_exception = false)
    (h2 : isinstanceOf e t.original_exception = true) :
    raise_transformed_exception (ts1 ++ t :: ts2) e amb fid
      = Except.error (transform_and_raise t e amb fid) := by
  induction ts1 with
  | nil => simp [raise_transformed_exception, h2]
  | cons t0 rest ih =>
    have h0 : ¬ isinstanceOf e t0.original_exception = true := by
      simp [h1 t0 (by simp)]
    simp only [List.cons_append, raise_transformed_exception]
    rw [if_neg h0]
    exact ih (fun x hx => h1 x (by simp [hx]))

/-- Claim C1 witness: rules `KeyError → ValueError` then
`LookupError → RuntimeError` (the second matching a strict ancestor of
the first) with an observed `KeyError`: the first rule is selected. -/
theorem first_matching_rule_wins_witness :
    raise_transformed_exception
      [⟨ExcKind.keyError, ExcKind.valueError, ErrMsg.str "specific", false⟩,
       ⟨ExcKind.lookupError, ExcKind.runtimeError, ErrMsg.str "general", false⟩]
      (Exc.mk 0 ExcKind.keyError (Option.some "boom") Option.none Option.none false)
      (Option.some (Exc.mk 0 ExcKind.keyError (Option.some "boom") Option.none Option.none false)) 1
    = Except.error (transform_and_raise
        ⟨ExcKind.keyError, ExcKind.valueError, ErrMsg.str "specific", false⟩
        (Exc.mk 0 ExcKind.keyError (Option.some "boom") Option.none Option.none false)
        (Option.some (Exc.mk 0 ExcKind.keyError (Option.some "boom") Option.none Option.none false)) 1) :=
  first_matching_rule_wins []
    [⟨ExcKind.lookupError, ExcKind.runtimeError, ErrMsg.str "general", false⟩]
    ⟨ExcKind.keyError, ExcKind.valueError, ErrMsg.str "specific", false⟩
    (Exc.mk 0 ExcKind.keyError (Option.some "boom") Option.none Option.none false)
    (Option.some (Exc.mk 0 ExcKind.keyError (Option.some "boom") Option.none Option.none false)) 1
    (by simp) (by decide)

/-- Claim C3: when no rule matches (in particular for the empty rule
sequence), the matcher re-raises the observed error itself: the very
same instance, hence with unchanged identity, kind, message argument
and pre-existing cause. -/
theorem unmatched_error_reraised (ts : List ExceptionTransformation) (e : Exc)
    (amb : Option Exc) (fid : Nat)
    (h : ∀ t ∈ ts, isinstanceOf e t.original_exception = false) :
    raise_transformed_exception ts e amb fid = Except.error e := by
  induction ts with
  | nil => rfl
  | cons t rest ih =>
    have h0 : ¬ isinstanceOf e t.original_exception = true := by
      simp [h t (by simp)]
    simp only [raise_transformed_exception]
    rw [if_neg h0]
    exact ih (fun x hx => h x (by simp [hx]))

/-- Claim C3 witness: an empty rule set re-raises a `KeyError` that
already carries a cause, unchanged. -/
theorem unmatched_error_reraised_witness :
    raise_transformed_exception []
      (Exc.mk 0 ExcKind.keyError (Option.some "boom")
        (Option.some (Exc.mk 9 ExcKind.typeError Option.none Option.none Option.none false))
        Option.none false)
      Option.none 5
    = Except.error
      (Exc.mk 0 ExcKind.keyError (Option.some "boom")
        (Option.some (Exc.mk 9 ExcKind.typeError Option.none Option.none Option.none false))
        Option.none false) :=
  unmatched_error_reraised [] _ Option.none 5 (by simp)

/-- Claim C4: a matched rule with `from_error = false` raises with
`from None`, so the replacement records no cause and additionally
suppresses the ambient context, whatever exception was in flight. -/
theorem chain_false_cause_none (t : ExceptionTransformation) (e : Exc)
    (amb : Option Exc) (fid : Nat) (h : t.from_error = false) :
    (transform_and_raise t e amb fid).cause = Option.none ∧
    (transform_and_raise t e amb fid).suppressContext = true := by
  unfold transform_and_raise
  rw [h]
  exact ⟨rfl, rfl⟩

/-- Claim C4 witness: a non-chaining `KeyError → ValueError` rule
applied while an ambient exception is in flight still records no
cause. -/
theorem chain_false_cause_none_witness :
    (transform_and_raise ⟨ExcKind.keyError, ExcKind.valueError, ErrMsg.str "msg", false⟩
      (Exc.mk 0 ExcKind.keyError (Option.some "boom") Option.none Option.none false)
      (Option.some (Exc.mk 0 ExcKind.keyError (Option.some "boom") Option.none Option.none false))
      3).cause = Option.none ∧
    (transform_and_raise ⟨ExcKind.keyError, ExcKind.valueError, ErrMsg.str "msg", false⟩
      (Exc.mk 0 ExcKind.keyError (Option.some "boom") Option.none Option.none false)
      (Option.some (Exc.mk 0 ExcKind.keyError (Option.some "boom") Option.none Option.none false))
      3).suppressContext = true :=
  chain_false_cause_none _ _ _ 3 rfl

/-- Claim C5: a matched rule with `from_error = true` raises
`from error`, recording as cause exactly the observed error value —
identity (the `id` component) included. -/
theorem chain_true_cause_original (t : ExceptionTransformation) (e : Exc)
    (amb : Option Exc) (fid : Nat) (h : t.from_error = true) :
    (transform_and_raise t e amb fid).cause = Option.some e := by
  unfold transform_and_raise
  rw [h]
  rfl

/-- Claim C5 witness: a chaining rule records the observed instance
(with its identity 7) as the cause. -/
theorem chain_true_cause_original_witness :
    (transform_and_raise ⟨ExcKind.keyError, ExcKind.valueError, ErrMsg.str "msg", true⟩
      (Exc.mk 7 ExcKind.keyError (Option.some "boom") Option.none Option.none false)
      (Option.some (Exc.mk 7 ExcKind.keyError (Option.some "boom") Option.none Option.none false))
      3).cause
    = Option.some (Exc.mk 7 ExcKind.keyError (Option.some "boom") Option.none Option.none false) :=
  chain_true_cause_original _ _ _ 3 rfl

/-- Claim C7: the matcher never returns normally and never swallows the
error: every invocation yields `Except.error`, and the raised value is
either the original error or a matched transformation carrying that
transformation's `new_exception` kind. -/
theorem matcher_always_raises (ts : List ExceptionTransformation) (e : Exc)
    (amb : Option Exc) (fid : Nat) :
    ∃ exc, raise_transformed_exception ts e amb fid = Except.error exc ∧
      (exc = e ∨ ∃ t ∈ ts, isinstanceOf e t.original_exception = true ∧
        exc = transform_and_raise t e amb fid ∧ exc.kind = t.new_exception) := by
  obtain ⟨exc, hexc, hcases⟩ := raise_transformed_exception_error ts e amb fid
  refine ⟨exc, hexc, ?_⟩
  rcases hcases with h1 | ⟨t, ht, hmatch, hval⟩
  · exact Or.inl h1
  · exact Or.inr ⟨t, ht, hmatch, hval, hval ▸ transform_and_raise_kind t e amb fid⟩

/-- Claim C2 (code bug): for the rule `KeyError → ValueError` with absent
message and no chaining, and observed `KeyError("missing")` (rendered
message the quoted text, per the KeyError repr rendering),
`_transform_and_raise` passes the Python value `None` — not
`str(error)` — to the `ValueError` constructor (zombie.py lines 90,
109), so the replacement renders as "None" instead of the observed
message, contradicting the module docstring (lines 40-42: with the
default `None`, the original error message will be used) and the spec. -/
theorem absent_message_renders_none :
    strExc (Exc.mk 0 ExcKind.keyError (Option.some "missing") Option.none Option.none false)
      = "\x27missing\x27" ∧
    raise_transformed_exception
      [⟨ExcKind.keyError, ExcKind.valueError, ErrMsg.none, false⟩]
      (Exc.mk 0 ExcKind.keyError (Option.some "missing") Option.none Option.none false)
      (Option.some (Exc.mk 0 ExcKind.keyError (Option.some "missing") Option.none Option.none false)) 1
      = Except.error (Exc.mk 1 ExcKind.valueError Option.none Option.none
          (Option.some (Exc.mk 0 ExcKind.keyError (Option.some "missing") Option.none Option.none false)) true) ∧
    strExc (Exc.mk 1 ExcKind.valueError Option.none Option.none
          (Option.some (Exc.mk 0 ExcKind.keyError (Option.some "missing") Option.none Option.none false)) true)
      = "None" ∧
    ("None" : String) ≠ "\x27missing\x27" :=
  ⟨rfl, rfl, rfl, by decide⟩

/-- Claim C8: the function-wrapping guard returns the wrapped
callable's value unchanged on normal completion — whatever the rule
set, so no rule is consulted — and on any raised error it routes the
error through the matcher and propagates exactly what the matcher
raises, never returning normally on that path. -/
theorem wrapper_passthrough_and_route {α β : Type}
    (ts : List ExceptionTransformation) (f : α → Except Exc β) (a : α)
    (fid : Nat) :
    (∀ r, f a = Except.ok r → reraise_wrapper ts f a fid = Except.ok (Option.some r)) ∧
    (∀ e, f a = Except.error e → ∃ exc,
        raise_transformed_exception ts e (Option.some e) fid = Except.error exc ∧
        reraise_wrapper ts f a fid = Except.error exc) := by
  constructor
  · intro r hr
    simp [reraise_wrapper, hr]
  · intro e he
    obtain ⟨exc, hexc, _⟩ := raise_transformed_exception_error ts e (Option.some e) fid
    refine ⟨exc, hexc, ?_⟩
    simp [reraise_wrapper, he, hexc]

/-- Claim C8 witness: a wrapped callable returning 42 passes through
unchanged under a nonempty rule set; one raising a `TypeError` under a
`TypeError → RuntimeError` rule propagates the matcher's raise. -/
theorem wrapper_passthrough_and_route_witness :
    reraise_wrapper
      [⟨ExcKind.keyError, ExcKind.valueError, ErrMsg.str "msg", false⟩]
      (fun _ : Unit => Except.ok (42 : Nat)) () 1 = Except.ok (Option.some 42) ∧
    (∃ exc,
      raise_transformed_exception
        [⟨ExcKind.typeError, ExcKind.runtimeError, ErrMsg.str "rt", true⟩]
        (Exc.mk 4 ExcKind.typeError (Option.some "t") Option.none Option.none false)
        (Option.some (Exc.mk 4 ExcKind.typeError (Option.some "t") Option.none Option.none false)) 9
        = Except.error exc ∧
      reraise_wrapper
        [⟨ExcKind.typeError, ExcKind.runtimeError, ErrMsg.str "rt", true⟩]
        (fun _ : Unit => (Except.error
          (Exc.mk 4 ExcKind.typeError (Option.some "t") Option.none Option.none false) : Except Exc Nat)) () 9
        = Except.error exc) :=
  ⟨(wrapper_passthrough_and_route
      [⟨ExcKind.keyError, ExcKind.valueError, ErrMsg.str "msg", false⟩]
      (fun _ : Unit => Except.ok (42 : Nat)) () 1).1 42 rfl,
   (wrapper_passthrough_and_route
      [⟨ExcKind.typeError, ExcKind.runtimeError, ErrMsg.str "rt", true⟩]
      (fun _ : Unit => (Except.error
        (Exc.mk 4 ExcKind.typeError (Option.some "t") Option.none Option.none false) : Except Exc Nat)) () 9).2
      (Exc.mk 4 ExcKind.typeError (Option.some "t") Option.none Option.none false) rfl⟩

/-- Whether a `PyVal` is a single Transformation Rule (claim C9
vocabulary). -/
def PyVal.isSingleRule : PyVal → Bool
  | .transformation _ => true
  | _ => false

/-- Whether a `PyVal` is a sequence of Transformation Rules (claim C9
vocabulary): a list all of whose elements are rules. -/
def PyVal.isRuleSeq : PyVal → Bool
  | .pyList xs => xs.all fun x => PyVal.isSingleRule x
  | _ => false

/-- Claim C9 counterexample: the list `[1]` is neither a single
Transformation Rule nor a sequence of Transformation Rules, yet
`Reraise.__init__` accepts it — `tuple([1])` succeeds — so construction
does not fail. -/
theorem reraise_init_accepts_nonrule_sequence :
    PyVal.isSingleRule (PyVal.pyList [PyVal.pyInt 1]) = false ∧
    PyVal.isRuleSeq (PyVal.pyList [PyVal.pyInt 1]) = false ∧
    Reraise_init (PyVal.pyList [PyVal.pyInt 1]) = Except.ok [PyVal.pyInt 1] :=
  ⟨rfl, rfl, rfl⟩

/-- Claim C9 (amended): guard construction fails immediately (with
`TypeError`) exactly when the argument is neither a single
Transformation Rule nor iterable; any iterable — whatever its
elements — is accepted at construction time. -/
theorem reraise_init_fails_iff_noniterable (v : PyVal) :
    Reraise_init v = Except.error "TypeError" ↔
      (PyVal.isSingleRule v = false ∧ PyVal.isIterable v = false) := by
  cases v <;> simp [Reraise_init, PyVal.isSingleRule, PyVal.isIterable]

/-- Claim C10: `Reraise.__init__` snapshots the supplied sequence into
a tuple: the stored rules are the list object's contents at
construction time, and a later invocation of the guard — after the
list object has been mutated to arbitrary new contents — still
consults exactly the snapshot, while the mutation itself is visible in
the heap. -/
theorem guard_rules_snapshot (h : RuleHeap) (r : Nat)
    (ys : List ExceptionTransformation) (exc : Option Exc) (fid : Nat) :
    (Reraise_mk_from_ref h r).exception_transformations = h r ∧
    RuleHeap.update h r ys r = ys ∧
    (Reraise_mk_from_ref h r).exitAt (RuleHeap.update h r ys) exc fid
      = Reraise_exit (h r) exc fid :=
  ⟨rfl, by simp [RuleHeap.update], rfl⟩

/-- Helper: concatenation of strings concatenates their character
lists. -/
theorem string_data_append (a b : String) : (a ++ b).data = a.data ++ b.data := by
  cases a
  cases b
  rfl

/-- A braced template placeholder: the delimiter, an opening brace, the
name, a closing brace. -/
def bracedPlaceholder (name : String) : String :=
  String.mk (dollarChar :: lbraceChar :: (name.data ++ [rbraceChar]))

/-- Helper: the message argument built for a template rule is the
safe substitution of `original_error_message := str(error)` into the
template text (zombie.py lines 93-97). -/
theorem transform_and_raise_arg_template (t : ExceptionTransformation) (e : Exc)
    (amb : Option Exc) (fid : Nat) (tpl : String)
    (h : t.error_message = ErrMsg.template tpl) :
    (transform_and_raise t e amb fid).arg
      = Option.some (safeSubstitute [("original_error_message", strExc e)] tpl) := by
  unfold transform_and_raise
  rw [h]
  by_cases hf : t.from_error = true
  · rw [if_pos hf]
    rfl
  · rw [if_neg hf]
    rfl

/-- Helper: safe substitution on a template made of a `$`-free prefix,
one braced placeholder with a valid identifier name, and a `$`-free
suffix: the placeholder is replaced when its name is in the mapping and
left literally in place when it is not; the rest passes through. -/
theorem safeSub_template_split (m : List (String × String)) (pre post : String)
    (c : Char) (cs : List Char)
    (hpre : ∀ x ∈ pre.data, x ≠ dollarChar)
    (hpost : ∀ x ∈ post.data, x ≠ dollarChar)
    (hc : isIdentStart c = true)
    (hcs : ∀ x ∈ cs, isIdentCont x = true) :
    safeSubstitute m (pre ++ bracedPlaceholder (String.mk (c :: cs)) ++ post)
      = match assocGet (String.mk (c :: cs)) m with
        | Option.some v => pre ++ v ++ post
        | Option.none => pre ++ bracedPlaceholder (String.mk (c :: cs)) ++ post := by
  have hdata : (pre ++ bracedPlaceholder (String.mk (c :: cs)) ++ post).data
      = pre.data ++ (dollarChar :: lbraceChar :: (c :: (cs ++ rbraceChar :: post.data))) := by
    simp [string_data_append, bracedPlaceholder]
  have ht : takeIdent (c :: (cs ++ rbraceChar :: post.data)) = (c :: cs, rbraceChar :: post.data) :=
    takeIdent_append c cs hc hcs rbraceChar (by decide) post.data
  unfold safeSubstitute
  rw [hdata]
  rw [safeSub_append_noDollar m pre.data _ hpre]
  cases hget : assocGet (String.mk (c :: cs)) m with
  | some v =>
    rw [safeSub_braced_found m (c :: (cs ++ rbraceChar :: post.data)) (c :: cs) post.data v ht
      (by simp) hget]
    rw [safeSub_noDollar m post.data hpost]
    apply String.ext
    simp [string_data_append]
  | none =>
    rw [safeSub_braced_missing m (c :: (cs ++ rbraceChar :: post.data)) (c :: cs) post.data ht
      (by simp) hget]
    rw [safeSub_noDollar m post.data hpost]
    apply String.ext
    rw [hdata]
    simp

/-- Claim C6: for a rule whose message is a template, the resolver
substitutes the `original_error_message` placeholder by the observed
error's rendered message, while a placeholder with any other
(identifier) name is left as literal text in the final message rather
than failing: substitution is total, so a mismatch never raises. -/
theorem template_substitution (t : ExceptionTransformation) (e : Exc)
    (amb : Option Exc) (fid : Nat) (pre post : String) (c : Char) (cs : List Char)
    (hpre : ∀ x ∈ pre.data, x ≠ dollarChar)
    (hpost : ∀ x ∈ post.data, x ≠ dollarChar)
    (hc : isIdentStart c = true)
    (hcs : ∀ x ∈ cs, isIdentCont x = true)
    (hunk : String.mk (c :: cs) ≠ "original_error_message") :
    (t.error_message = ErrMsg.template
        (pre ++ bracedPlaceholder "original_error_message" ++ post) →
      (transform_and_raise t e amb fid).arg = Option.some (pre ++ strExc e ++ post)) ∧
    (t.error_message = ErrMsg.template
        (pre ++ bracedPlaceholder (String.mk (c :: cs)) ++ post) →
      (transform_and_raise t e amb fid).arg
        = Option.some (pre ++ bracedPlaceholder (String.mk (c :: cs)) ++ post)) := by
  constructor
  · intro herr
    have herr2 : t.error_message = ErrMsg.template
        (pre ++ bracedPlaceholder (String.mk ('o' :: "riginal_error_message".data)) ++ post) := herr
    rw [transform_and_raise_arg_template t e amb fid _ herr2]
    rw [safeSub_template_split [("original_error_message", strExc e)] pre post 'o'
      "riginal_error_message".data hpre hpost (by decide) (by decide)]
    have hget1 : assocGet (String.mk ('o' :: "riginal_error_message".data))
        [("original_error_message", strExc e)] = Option.some (strExc e) := by
      unfold assocGet
      rw [if_pos rfl]
    rw [hget1]
  · intro herr
    rw [transform_and_raise_arg_template t e amb fid _ herr]
    rw [safeSub_template_split [("original_error_message", strExc e)] pre post c cs
      hpre hpost hc hcs]
    have hget2 : assocGet (String.mk (c :: cs))
        [("original_error_message", strExc e)] = Option.none := by
      unfold assocGet
      rw [if_neg (fun hh => hunk hh.symm)]
      rfl
    rw [hget2]

/-- Claim C6 witness: template `Error: ` followed by the
`original_error_message` placeholder, observed `KeyError("boom")`,
yields the quoted original message spliced in; a template with the
unknown placeholder name `unknown` is reproduced literally. -/
theorem template_substitution_witness :
    (transform_and_raise ⟨ExcKind.keyError, ExcKind.valueError,
        ErrMsg.template "Error: $\x7boriginal_error_message\x7d", true⟩
      (Exc.mk 0 ExcKind.keyError (Option.some "boom") Option.none Option.none false)
      (Option.some (Exc.mk 0 ExcKind.keyError (Option.some "boom") Option.none Option.none false)) 1).arg
      = Option.some "Error: \x27boom\x27" ∧
    (transform_and_raise ⟨ExcKind.keyError, ExcKind.valueError,
        ErrMsg.template "Oops $\x7bunknown\x7d", false⟩
      (Exc.mk 0 ExcKind.keyError (Option.some "boom") Option.none Option.none false)
      Option.none 2).arg
      = Option.some "Oops $\x7bunknown\x7d" := by
  constructor
  · have h := (template_substitution ⟨ExcKind.keyError, ExcKind.valueError,
        ErrMsg.template "Error: $\x7boriginal_error_message\x7d", true⟩
      (Exc.mk 0 ExcKind.keyError (Option.some "boom") Option.none Option.none false)
      (Option.some (Exc.mk 0 ExcKind.keyError (Option.some "boom") Option.none Option.none false)) 1
      "Error: " "" 'u' "nknown".data
      (by decide) (by decide) (by decide) (by decide) (by decide)).1 (by decide)
    rw [h]
    decide
  · have h := (template_substitution ⟨ExcKind.keyError, ExcKind.valueError,
        ErrMsg.template "Oops $\x7bunknown\x7d", false⟩
      (Exc.mk 0 ExcKind.keyError (Option.some "boom") Option.none Option.none false)
      Option.none 2
      "Oops " "" 'u' "nknown".data
      (by decide) (by decide) (by decide) (by decide) (by decide)).2 (by decide)
    rw [h]
    decide
